import Mathlib

/-!
Verification of the MP4-to-MP3 converter server (the Express application
embedded in QUICK_FIX.md).  The server is shallowly embedded: the filesystem
is a set of existing paths, every route handler is a pure function from its
request data and the filesystem to a sent response plus a new filesystem,
and the external ffmpeg engine is a parameter describing the outcome it
reports and the files it leaves behind.
-/

namespace Mp4ToMp3

/-- A JSON value as produced by the handlers via res.json. -/
inductive JVal
  | str (s : String)
  | num (n : Nat)
  | bool (b : Bool)
deriving DecidableEq, Repr

/-- An HTTP response: status code plus JSON body as an ordered key-value list. -/
structure Response where
  status : Nat
  body : List (String × JVal)
deriving DecidableEq, Repr

/-- The filesystem: the set of paths that currently exist, as a list. -/
structure FS where
  files : List String
deriving DecidableEq, Repr

/-- Model of fs.existsSync. -/
def FS.existsSync (fs : FS) (p : String) : Bool :=
  decide (p ∈ fs.files)

/-- Creating a file at a path (ffmpeg writing its output, multer storing an upload). -/
def FS.create (fs : FS) (p : String) : FS :=
  ⟨p :: fs.files⟩

/-- Removing a file at a path (the effect of a successful fs.unlinkSync). -/
def FS.unlink (fs : FS) (p : String) : FS :=
  ⟨fs.files.filter (fun q => q != p)⟩

theorem FS.existsSync_unlink_self (fs : FS) (p : String) :
    (fs.unlink p).existsSync p = false := by
  simp [FS.unlink, FS.existsSync, List.mem_filter]

theorem FS.existsSync_create_of_existsSync (fs : FS) (p q : String)
    (h : fs.existsSync p = true) : (fs.create q).existsSync p = true := by
  simp only [FS.existsSync, decide_eq_true_eq] at h ⊢
  exact List.mem_cons_of_mem q h

/-- Index of the last dot in a character list, if any. -/
def lastDotPos : List Char → Option Nat
  | [] => none
  | c :: cs =>
    match lastDotPos cs with
    | some n => some (n + 1)
    | none => if c = '.' then some 0 else none

/-- The portion of a path after the last slash (the Node basename of the path). -/
def basePart (s : String) : List Char :=
  (s.toList.reverse.takeWhile (fun c => c != '/')).reverse

/-- Model of Node path.extname: the extension of the last path segment, from its
last dot to the end; empty when the segment has no dot or only a leading dot. -/
def extname (s : String) : String :=
  let b := basePart s
  match lastDotPos b with
  | none => ""
  | some 0 => ""
  | some i => String.mk (b.drop i)

example : extname "clip.mp4" = ".mp4" := by decide
example : extname "archive.tar.gz" = ".gz" := by decide
example : extname ".bashrc" = "" := by decide
example : extname "noext" = "" := by decide
example : extname "dir.d/noext" = "" := by decide

/-- A candidate upload as multer sees it: declared original name, declared
media type, and size in bytes. -/
structure Candidate where
  originalname : String
  mimetype : String
  size : Nat
deriving DecidableEq, Repr

/-- The mime-type allow-list of the fileFilter. -/
def allowedTypes : List String :=
  ["video/mp4", "audio/mp4", "video/avi", "video/mov", "video/wmv"]

/-- The extension allow-list of the fileFilter. -/
def allowedExtensions : List String :=
  [".mp4", ".avi", ".mov", ".wmv", ".m4v"]

/-- The message of the Error passed to the multer callback on rejection. -/
def invalidTypeMsg : String :=
  "Invalid file type. Only MP4, AVI, MOV, and WMV files are allowed."

/-- Model of the JavaScript toLowerCase call as used on extensions (ASCII). -/
def lowerAscii (s : String) : String :=
  String.mk (s.toList.map Char.toLower)

/-- Outcome of the multer fileFilter callback. -/
inductive FilterResult
  | accept
  | reject (msg : String)
deriving DecidableEq, Repr

/-- Model of the fileFilter option of the multer configuration. -/
def fileFilter (file : Candidate) : FilterResult :=
  let mimeTypeValid := allowedTypes.contains file.mimetype
  let extensionValid := allowedExtensions.contains (lowerAscii (extname file.originalname))
  if mimeTypeValid || extensionValid then .accept
  else .reject invalidTypeMsg

/-- The configured fileSize limit: 500 MB. -/
def fileSizeLimit : Nat := 500 * 1024 * 1024

example : fileFilter ⟨"clip.mp4", "video/mp4", 100⟩ = .accept := by decide
example : fileFilter ⟨"clip.bin", "video/mp4", 100⟩ = .accept := by decide
example : fileFilter ⟨"CLIP.MP4", "application/octet-stream", 100⟩ = .accept := by decide
example : fileFilter ⟨"photo.png", "image/png", 100⟩ = .reject invalidTypeMsg := by decide

/-- The uploads directory (intake). -/
def uploadsDir : String := "uploads"

/-- The converted directory (output). -/
def convertedDir : String := "converted"

/-- The filename the multer diskStorage assigns: a fresh uuid plus the
extension of the declared original name. -/
def storedFilename (uploadId : String) (file : Candidate) : String :=
  uploadId ++ extname file.originalname

/-- Outcome of the upload.single middleware before the route handler runs. -/
inductive UploadOutcome
  | noFile
  | stored (file : Candidate) (storedPath : String)
  | rejected (msg : String)
  | tooLarge
deriving DecidableEq, Repr

/-- Model of upload.single: no payload passes through with req.file undefined;
otherwise the fileFilter decides acceptance, then the fileSize limit applies;
an accepted upload is stored under uploadsDir with the uuid-based name. -/
def uploadSingle (cand : Option Candidate) (uploadId : String) : UploadOutcome :=
  match cand with
  | none => .noFile
  | some file =>
    match fileFilter file with
    | .reject msg => .rejected msg
    | .accept =>
      if file.size > fileSizeLimit then .tooLarge
      else .stored file (uploadsDir ++ "/" ++ storedFilename uploadId file)

/-- The filesystem effect of the upload middleware: a stored upload exists on
disk when the handler runs; a rejected or oversized one leaves no file. -/
def multerStore (upl : UploadOutcome) (fs : FS) : FS :=
  match upl with
  | .stored _ storedPath => fs.create storedPath
  | _ => fs

/-- The error-handling middleware at the bottom of the app: a MulterError with
code LIMIT_FILE_SIZE gets a 400 File too large body, every other error a 500
Internal server error body carrying the message of the error. -/
def errorMiddleware (isLimitFileSize : Bool) (msg : String) : Response :=
  if isLimitFileSize then
    { status := 400
      body := [("success", .bool false), ("error", .str "File too large"),
               ("message", .str "Maximum file size is 500MB")] }
  else
    { status := 500
      body := [("success", .bool false), ("error", .str "Internal server error"),
               ("message", .str msg)] }

/-- The 400 body of the missing-file guard of the convert handler. -/
def noFileResponse : Response :=
  { status := 400
    body := [("success", .bool false), ("error", .str "No file uploaded")] }

/-- The 500 body the catch block of the convert handler sends. -/
def conversionFailedResponse (msg : String) : Response :=
  { status := 500
    body := [("success", .bool false), ("error", .str "Conversion failed"),
             ("message", .str msg)] }

/-- The responseData object sent on conversion success. -/
def successResponse (outputFilename : String) (file : Candidate) : Response :=
  { status := 200
    body := [("success", .bool true),
             ("message", .str "Conversion completed successfully"),
             ("downloadUrl", .str ("/api/download/" ++ outputFilename)),
             ("filename", .str outputFilename),
             ("originalName", .str file.originalname),
             ("size", .num file.size)] }

/-- What the handler delivered: a response, or an exception that escaped the
handler (an async rejection Express never turns into a response). -/
inductive Sent
  | resp (r : Response)
  | uncaught (msg : String)
deriving DecidableEq, Repr

/-- What the ffmpeg engine reports for one invocation: the end event, with the
fact of whether the output file was actually produced, or the error event with
a message, with the fact of whether a partial output file was left behind. -/
inductive EngineOutcome
  | ended (produced : Bool)
  | errored (msg : String) (partOut : Bool)
deriving DecidableEq, Repr

/-- Exception message of a failed unlinkSync on an existing file. -/
def unlinkFailMsg : String := "EPERM: operation not permitted, unlink"

/-- Exception message of unlinkSync on a missing file. -/
def unlinkMissingMsg : String := "ENOENT: no such file or directory, unlink"

/-- The catch block of the convert handler: if req.file was set and its path
still exists, unlinkSync it (an exception here escapes the handler), then send
the 500 Conversion failed body. -/
def convertCatch (storedPath : String) (msg : String) (unlinkOk : String → Bool)
    (fs : FS) : Sent × FS :=
  if fs.existsSync storedPath then
    if unlinkOk storedPath then
      (.resp (conversionFailedResponse msg), fs.unlink storedPath)
    else
      (.uncaught unlinkFailMsg, fs)
  else
    (.resp (conversionFailedResponse msg), fs)

/-- The convert route handler, entered after the upload middleware.  The
rejected and tooLarge outcomes never reach the handler body: multer passes the
error to the error-handling middleware.  In the stored case the engine runs
against the stored input; on the end event the handler unlinks the input
unconditionally (an exception jumps to the catch block) and sends the success
body, regardless of whether the output file exists; on the error event the
catch block runs with whatever partial output the engine left. -/
def apiConvert (upl : UploadOutcome) (outputId : String) (engine : EngineOutcome)
    (unlinkOk : String → Bool) (fs0 : FS) : Sent × FS :=
  match upl with
  | .noFile => (.resp noFileResponse, fs0)
  | .rejected msg => (.resp (errorMiddleware false msg), fs0)
  | .tooLarge => (.resp (errorMiddleware true "File too large"), fs0)
  | .stored file storedPath =>
    let outputFilename := outputId ++ ".mp3"
    let outputPath := convertedDir ++ "/" ++ outputFilename
    match engine with
    | .errored msg partOut =>
      let fs1 := if partOut then fs0.create outputPath else fs0
      convertCatch storedPath msg unlinkOk fs1
    | .ended produced =>
      let fs1 := if produced then fs0.create outputPath else fs0
      if fs1.existsSync storedPath then
        if unlinkOk storedPath then
          (.resp (successResponse outputFilename file), fs1.unlink storedPath)
        else
          convertCatch storedPath unlinkFailMsg unlinkOk fs1
      else
        convertCatch storedPath unlinkMissingMsg unlinkOk fs1

/-- The full convert endpoint: upload middleware, its filesystem effect, then
the route handler. -/
def convertEndpoint (cand : Option Candidate) (uploadId outputId : String)
    (engine : EngineOutcome) (unlinkOk : String → Bool) (fs0 : FS) : Sent × FS :=
  let upl := uploadSingle cand uploadId
  apiConvert upl outputId engine unlinkOk (multerStore upl fs0)

/-- The 404 body of the download endpoint. -/
def fileNotFoundResponse : Response :=
  { status := 404
    body := [("success", .bool false), ("error", .str "File not found")] }

/-- Model of originalName.replace of the download endpoint: drop a final
extension, meaning a last dot followed by one or more characters none of which
is a slash or a dot. -/
def stripLastExt (s : String) : String :=
  let cs := s.toList.reverse
  let pre := cs.takeWhile (fun c => c != '.' && c != '/')
  match cs.drop pre.length with
  | '.' :: rest => if pre.isEmpty then s else String.mk rest.reverse
  | _ => s

example : stripLastExt "clip.mp4" = "clip" := by decide
example : stripLastExt "converted.mp3" = "converted" := by decide
example : stripLastExt "noext" = "noext" := by decide
example : stripLastExt "a.b.c" = "a.b" := by decide
example : stripLastExt "trailingdot." = "trailingdot." := by decide

/-- What the download handler does for one call before any terminal event: a
404 when the file does not exist, otherwise it sets the headers and starts
streaming the file. -/
inductive DownloadResult
  | notFoundResp (r : Response)
  | serving (contentType : String) (contentDisposition : String)
deriving DecidableEq, Repr

/-- The download route handler: existence of converted/filename is the only
gate; when the file exists the handler serves it with content type audio/mpeg
and an attachment disposition derived from the optional original query. -/
def apiDownload (filename : String) (originalQuery : Option String) (fs : FS) :
    DownloadResult :=
  let filePath := convertedDir ++ "/" ++ filename
  if fs.existsSync filePath then
    let originalName := originalQuery.getD "converted.mp3"
    .serving "audio/mpeg"
      ("attachment; filename=\"" ++ stripLastExt originalName ++ ".mp3\"")
  else
    .notFoundResp fileNotFoundResponse

/-- The three terminal events registered by the download handler. -/
inductive Trigger
  | finish
  | error
  | close
deriving DecidableEq, Repr

/-- Whether a trigger runs its cleanup body: the close handler is guarded by
res.finished, the other two are unconditional. -/
def Trigger.eff (t : Trigger) (finished : Bool) : Bool :=
  match t with
  | .close => !finished
  | _ => true

/-- Result of one terminal handler: the new filesystem, whether this handler
performed the deletion, and any error surfaced to the consumer. -/
structure TriggerEffect where
  fs : FS
  deleted : Bool
  surfaced : Option String
deriving DecidableEq, Repr

/-- One terminal handler of the download endpoint.  Each handler re-checks
existsSync, unlinks inside a try/catch that only logs, and never surfaces an
error; the close handler first checks res.finished. -/
def runTrigger (unlinkOk : String → Bool) (filePath : String) (finished : Bool)
    (t : Trigger) (fs : FS) : TriggerEffect :=
  if t.eff finished then
    if fs.existsSync filePath then
      if unlinkOk filePath then ⟨fs.unlink filePath, true, none⟩
      else ⟨fs, false, none⟩
    else ⟨fs, false, none⟩
  else ⟨fs, false, none⟩

/-- Running a sequence of terminal triggers, counting performed deletions.
Node runs the three handlers sequentially on the event loop, so any
interleaving is a sequence. -/
def runTriggers (unlinkOk : String → Bool) (filePath : String) (finished : Bool) :
    List Trigger → FS → FS × Nat
  | [], fs => (fs, 0)
  | t :: ts, fs =>
    let e := runTrigger unlinkOk filePath finished t fs
    let r := runTriggers unlinkOk filePath finished ts e.fs
    (r.1, (if e.deleted then 1 else 0) + r.2)

end Mp4ToMp3


namespace Mp4ToMp3

/-! Helper lemmas about the filesystem model and the handlers. -/

theorem FS.existsSync_create (fs : FS) (p q : String) :
    (fs.create q).existsSync p = (p == q || fs.existsSync p) := by
  by_cases h : p = q <;> simp [FS.create, FS.existsSync, List.mem_cons, h]

theorem FS.existsSync_unlink (fs : FS) (p q : String) :
    (fs.unlink q).existsSync p = (p != q && fs.existsSync p) := by
  by_cases h : p = q <;> simp [FS.unlink, FS.existsSync, List.mem_filter, h]

theorem lookup_success_errorMiddleware (b : Bool) (msg : String) :
    (errorMiddleware b msg).body.lookup "success" = some (.bool false) := by
  cases b <;> rfl

theorem lookup_success_conversionFailed (msg : String) :
    (conversionFailedResponse msg).body.lookup "success" = some (.bool false) := rfl

theorem lookup_success_noFile :
    noFileResponse.body.lookup "success" = some (.bool false) := rfl

theorem lookup_success_success (outputFilename : String) (file : Candidate) :
    (successResponse outputFilename file).body.lookup "success" = some (.bool true) := rfl

theorem runTrigger_surfaced_none (unlinkOk : String → Bool) (filePath : String)
    (finished : Bool) (t : Trigger) (fs : FS) :
    (runTrigger unlinkOk filePath finished t fs).surfaced = none := by
  unfold runTrigger
  repeat' split
  all_goals rfl

theorem runTrigger_of_not_exists (unlinkOk : String → Bool) (filePath : String)
    (finished : Bool) (t : Trigger) (fs : FS)
    (h : fs.existsSync filePath = false) :
    runTrigger unlinkOk filePath finished t fs = ⟨fs, false, none⟩ := by
  unfold runTrigger
  split <;> simp [h]

theorem runTrigger_not_deleted_fs (unlinkOk : String → Bool) (filePath : String)
    (finished : Bool) (t : Trigger) (fs : FS)
    (h : (runTrigger unlinkOk filePath finished t fs).deleted = false) :
    (runTrigger unlinkOk filePath finished t fs).fs = fs := by
  unfold runTrigger at h ⊢
  repeat' split at h
  all_goals first | rfl | simp_all

theorem runTrigger_deleted_fs (unlinkOk : String → Bool) (filePath : String)
    (finished : Bool) (t : Trigger) (fs : FS)
    (h : (runTrigger unlinkOk filePath finished t fs).deleted = true) :
    (runTrigger unlinkOk filePath finished t fs).fs = fs.unlink filePath := by
  unfold runTrigger at h ⊢
  repeat' split at h
  all_goals first | rfl | simp_all

theorem runTriggers_of_not_exists (unlinkOk : String → Bool) (filePath : String)
    (finished : Bool) (ts : List Trigger) (fs : FS)
    (h : fs.existsSync filePath = false) :
    runTriggers unlinkOk filePath finished ts fs = (fs, 0) := by
  induction ts with
  | nil => rfl
  | cons t ts ih =>
    unfold runTriggers
    rw [runTrigger_of_not_exists unlinkOk filePath finished t fs h]
    simp [ih]

theorem runTriggers_count_le_one (unlinkOk : String → Bool) (filePath : String)
    (finished : Bool) (ts : List Trigger) (fs : FS) :
    (runTriggers unlinkOk filePath finished ts fs).2 ≤ 1 := by
  induction ts generalizing fs with
  | nil => simp [runTriggers]
  | cons t ts ih =>
    simp only [runTriggers]
    by_cases hd : (runTrigger unlinkOk filePath finished t fs).deleted = true
    · have hfs := runTrigger_deleted_fs unlinkOk filePath finished t fs hd
      rw [hd, hfs, runTriggers_of_not_exists unlinkOk filePath finished ts _
        (FS.existsSync_unlink_self fs filePath)]
      simp
    · rw [Bool.not_eq_true] at hd
      rw [hd]
      simpa using ih (runTrigger unlinkOk filePath finished t fs).fs

theorem runTriggers_count_eq_one (unlinkOk : String → Bool) (filePath : String)
    (finished : Bool) (ts : List Trigger) (fs : FS)
    (hex : fs.existsSync filePath = true) (hun : unlinkOk filePath = true)
    (heff : ∃ t ∈ ts, t.eff finished = true) :
    (runTriggers unlinkOk filePath finished ts fs).2 = 1 ∧
    ((runTriggers unlinkOk filePath finished ts fs).1).existsSync filePath = false := by
  induction ts generalizing fs with
  | nil => simp at heff
  | cons t ts ih =>
    simp only [runTriggers]
    by_cases he : t.eff finished = true
    · have hrt : runTrigger unlinkOk filePath finished t fs
          = ⟨fs.unlink filePath, true, none⟩ := by
        unfold runTrigger
        rw [he, hex, hun]
        rfl
      rw [hrt]
      simp only
      rw [runTriggers_of_not_exists unlinkOk filePath finished ts _
        (FS.existsSync_unlink_self fs filePath)]
      exact ⟨rfl, FS.existsSync_unlink_self fs filePath⟩
    · have hrt : runTrigger unlinkOk filePath finished t fs = ⟨fs, false, none⟩ := by
        unfold runTrigger
        rw [Bool.not_eq_true] at he
        rw [he]
        rfl
      rw [hrt]
      obtain ⟨t', ht', he'⟩ := heff
      rcases List.mem_cons.mp ht' with h1 | h1
      · subst h1
        exact absurd he' he
      · simpa using ih fs hex ⟨t', h1, he'⟩

end Mp4ToMp3

namespace Mp4ToMp3

/-! Concrete fixtures used by witnesses and counterexamples. -/

/-- A well-formed 2 MB upload declared clip.mp4. -/
def candA : Candidate := ⟨"clip.mp4", "video/mp4", 2097152⟩

/-- An upload of an unsupported kind. -/
def candPng : Candidate := ⟨"photo.png", "image/png", 1000⟩

/-- A filesystem holding exactly one output artifact. -/
def fsOneArtifact : FS := ⟨["converted/abc.mp3"]⟩

/-! Claim C1. -/

/-- Claim C1 counterexample: with the artifact still on disk after streaming has
begun and before any terminal trigger has deleted it, the download handler
serves the file again on a second call instead of returning NotFound; the only
gate is existsSync, there is no Streaming or Completed state. -/
theorem second_download_reserves :
    apiDownload "abc.mp3" none fsOneArtifact
      = .serving "audio/mpeg" "attachment; filename=\"converted.mp3\"" ∧
    apiDownload "abc.mp3" none fsOneArtifact ≠ .notFoundResp fileNotFoundResponse := by
  decide

/-- Claim C1 amended: a second download call returns NotFound exactly when the
output file no longer exists on disk; once the first terminal trigger of a
download (release) has removed the file, a second call returns NotFound. -/
theorem download_notFound_iff (filename : String) (originalQuery : Option String)
    (fs : FS) (unlinkOk : String → Bool) :
    (apiDownload filename originalQuery fs = .notFoundResp fileNotFoundResponse ↔
      fs.existsSync (convertedDir ++ "/" ++ filename) = false) ∧
    (fs.existsSync (convertedDir ++ "/" ++ filename) = true →
      unlinkOk (convertedDir ++ "/" ++ filename) = true →
      apiDownload filename originalQuery
        ((runTrigger unlinkOk (convertedDir ++ "/" ++ filename) false .finish fs).fs)
        = .notFoundResp fileNotFoundResponse) := by
  constructor
  · by_cases h : fs.existsSync (convertedDir ++ "/" ++ filename) = true <;>
      simp [apiDownload, h]
  · intro hex hun
    have hrt : runTrigger unlinkOk (convertedDir ++ "/" ++ filename) false .finish fs
        = ⟨fs.unlink (convertedDir ++ "/" ++ filename), true, none⟩ := by
      unfold runTrigger
      rw [hex, hun]
      rfl
    rw [hrt]
    simp [apiDownload, FS.existsSync_unlink_self]

/-- Claim C1 amended, witness: a concrete completed download followed by a
second call that gets NotFound. -/
theorem download_notFound_iff_witness :
    apiDownload "abc.mp3" none
      ((runTrigger (fun _ => true) (convertedDir ++ "/" ++ "abc.mp3") false
        .finish fsOneArtifact).fs)
      = .notFoundResp fileNotFoundResponse :=
  (download_notFound_iff "abc.mp3" none fsOneArtifact (fun _ => true)).2
    (by decide) rfl

/-! Claim C2. -/

/-- Claim C2 counterexample: the engine reports the end event but produced no
output file; Convert still answers with the success body and no output file
exists in the final state. -/
theorem success_without_output :
    (convertEndpoint (some candA) "u1" "o1" (.ended false) (fun _ => true) ⟨[]⟩).1
      = .resp (successResponse "o1.mp3" candA) ∧
    ((convertEndpoint (some candA) "u1" "o1" (.ended false) (fun _ => true)
      ⟨[]⟩).2).existsSync "converted/o1.mp3" = false := by
  decide

/-- Claim C2 amended: on a reported end event the handler logs whether the
output exists but declares success either way; no existence check gates the
success body. -/
theorem success_independent_of_output (file : Candidate)
    (storedPath outputId : String) (unlinkOk : String → Bool) (fs : FS)
    (produced : Bool) (hex : fs.existsSync storedPath = true)
    (hun : unlinkOk storedPath = true) :
    (apiConvert (.stored file storedPath) outputId (.ended produced) unlinkOk fs).1
      = .resp (successResponse (outputId ++ ".mp3") file) := by
  cases produced <;>
    simp [apiConvert, hex, hun, FS.existsSync_create, Bool.or_eq_true]

/-- Claim C2 amended, witness: a concrete end event with no output produced
still yields the success body. -/
theorem success_independent_of_output_witness :
    (apiConvert (.stored candA "uploads/u1.mp4") "o1" (.ended false)
      (fun _ => true) ⟨["uploads/u1.mp4"]⟩).1
      = .resp (successResponse ("o1" ++ ".mp3") candA) :=
  success_independent_of_output candA "uploads/u1.mp4" "o1" (fun _ => true)
    ⟨["uploads/u1.mp4"]⟩ false (by decide) rfl

/-! Claim C3. -/

/-- Claim C3 counterexample: the engine reports an error after writing a
partial output; the catch block deletes the intake file but the partial output
file survives in the final state, contradicting the claim that neither file
exists afterwards. -/
theorem partial_output_survives :
    (convertEndpoint (some candA) "u1" "o1" (.errored "boom" true) (fun _ => true)
      ⟨[]⟩).1 = .resp (conversionFailedResponse "boom") ∧
    ((convertEndpoint (some candA) "u1" "o1" (.errored "boom" true) (fun _ => true)
      ⟨[]⟩).2).existsSync "converted/o1.mp3" = true ∧
    ((convertEndpoint (some candA) "u1" "o1" (.errored "boom" true) (fun _ => true)
      ⟨[]⟩).2).existsSync "uploads/u1.mp4" = false := by
  decide

/-- Claim C3 amended: on a reported engine error the handler deletes the
intake artifact before the error response goes out, but a partially written
output file is not removed and remains on disk. -/
theorem engine_error_cleanup (file : Candidate)
    (storedPath outputId msg : String) (partOut : Bool)
    (unlinkOk : String → Bool) (fs : FS)
    (hun : unlinkOk storedPath = true)
    (hne : storedPath ≠ convertedDir ++ "/" ++ (outputId ++ ".mp3")) :
    (apiConvert (.stored file storedPath) outputId (.errored msg partOut)
      unlinkOk fs).1 = .resp (conversionFailedResponse msg) ∧
    ((apiConvert (.stored file storedPath) outputId (.errored msg partOut)
      unlinkOk fs).2).existsSync storedPath = false ∧
    (partOut = true →
      ((apiConvert (.stored file storedPath) outputId (.errored msg partOut)
        unlinkOk fs).2).existsSync (convertedDir ++ "/" ++ (outputId ++ ".mp3"))
        = true) := by
  have hout : convertedDir ++ "/" ++ (outputId ++ ".mp3") ≠ storedPath :=
    fun h => hne h.symm
  cases partOut <;>
    simp [apiConvert, convertCatch, hun, FS.existsSync_create,
      FS.existsSync_unlink, FS.existsSync_unlink_self, hout, hne] <;>
    by_cases hex : fs.existsSync storedPath = true <;>
    simp [hex, FS.existsSync_unlink, FS.existsSync_unlink_self, hout,
      FS.existsSync_create, hne]

/-- Claim C3 amended, witness: a concrete engine error with a partial output. -/
theorem engine_error_cleanup_witness :
    (apiConvert (.stored candA "uploads/u1.mp4") "o1" (.errored "boom" true)
      (fun _ => true) ⟨["uploads/u1.mp4"]⟩).1
      = .resp (conversionFailedResponse "boom") :=
  (engine_error_cleanup candA "uploads/u1.mp4" "o1" "boom" true (fun _ => true)
    ⟨["uploads/u1.mp4"]⟩ rfl (by decide)).1

end Mp4ToMp3

namespace Mp4ToMp3

/-! Claim C4. -/

/-- Claim C4 counterexample: an unsupported kind yields status 500 with error
field Internal server error and the invalid file type message, not a body with
error field UnsupportedKind; the claimed reason codes never appear. -/
theorem unsupported_kind_response :
    convertEndpoint (some candPng) "u1" "o1" (.ended true) (fun _ => true) ⟨[]⟩
      = (.resp (errorMiddleware false invalidTypeMsg), ⟨[]⟩) ∧
    (errorMiddleware false invalidTypeMsg).status = 500 ∧
    (errorMiddleware false invalidTypeMsg).body.lookup "error"
      = some (.str "Internal server error") := by
  decide

/-- Claim C4 amended: an unsupported kind is answered by the error middleware
with status 500, error field Internal server error and the invalid file type
message; an accepted kind over the 500 MB ceiling is answered with status 400
and error field File too large; in both cases the filesystem is unchanged, so
no artifact of the request is created under intake or output. -/
theorem validation_failure_responses (cand : Candidate)
    (uploadId outputId : String) (engine : EngineOutcome)
    (unlinkOk : String → Bool) (fs0 : FS) :
    (fileFilter cand = .reject invalidTypeMsg →
      convertEndpoint (some cand) uploadId outputId engine unlinkOk fs0
        = (.resp (errorMiddleware false invalidTypeMsg), fs0)) ∧
    (fileFilter cand = .accept → cand.size > fileSizeLimit →
      convertEndpoint (some cand) uploadId outputId engine unlinkOk fs0
        = (.resp (errorMiddleware true "File too large"), fs0)) := by
  constructor
  · intro h
    simp [convertEndpoint, uploadSingle, h, multerStore, apiConvert]
  · intro h hs
    simp [convertEndpoint, uploadSingle, h, hs, multerStore, apiConvert]

/-- Claim C4 amended, witness: the concrete unsupported upload gets the 500
Internal server error body and the filesystem stays empty. -/
theorem validation_failure_responses_witness :
    convertEndpoint (some candPng) "u2" "o2" (.ended true) (fun _ => true) ⟨[]⟩
      = (.resp (errorMiddleware false invalidTypeMsg), ⟨[]⟩) :=
  (validation_failure_responses candPng "u2" "o2" (.ended true) (fun _ => true)
    ⟨[]⟩).1 (by decide)

/-! Claim C5. -/

/-- Claim C5: the fileFilter accepts a candidate exactly when the declared
media type is in the mime allow-list or the lowercased extension of the
declared name is in the extension allow-list; a candidate failing both checks
is rejected with the invalid file type message. -/
theorem fileFilter_accept_iff (file : Candidate) :
    (fileFilter file = .accept ↔
      file.mimetype ∈ allowedTypes ∨
        lowerAscii (extname file.originalname) ∈ allowedExtensions) ∧
    (file.mimetype ∉ allowedTypes →
      lowerAscii (extname file.originalname) ∉ allowedExtensions →
      fileFilter file = .reject invalidTypeMsg) := by
  by_cases hm : file.mimetype ∈ allowedTypes <;>
    by_cases he : lowerAscii (extname file.originalname) ∈ allowedExtensions <;>
      simp [fileFilter, List.contains, List.elem_eq_mem, hm, he]

/-- Claim C5, witness: a candidate matching only the mime list is accepted, a
candidate matching only the extension list is accepted, and one failing both
is rejected. -/
theorem fileFilter_accept_iff_witness :
    fileFilter ⟨"clip.bin", "video/mp4", 100⟩ = .accept ∧
    fileFilter ⟨"CLIP.MP4", "application/octet-stream", 100⟩ = .accept ∧
    fileFilter candPng = .reject invalidTypeMsg :=
  ⟨(fileFilter_accept_iff ⟨"clip.bin", "video/mp4", 100⟩).1.mpr
      (Or.inl (by decide)),
   (fileFilter_accept_iff ⟨"CLIP.MP4", "application/octet-stream", 100⟩).1.mpr
      (Or.inr (by decide)),
   (fileFilter_accept_iff candPng).2 (by decide) (by decide)⟩

/-! Claim C6. -/

/-- Claim C6: release is idempotent: no terminal handler of the download
endpoint ever surfaces an error, any sequence of terminal triggers performs at
most one deletion, and when the artifact exists, removal succeeds, and at
least one effective trigger fires, exactly one deletion happens and the
artifact is gone afterwards, later triggers being no-ops. -/
theorem release_idempotent (unlinkOk : String → Bool) (filePath : String)
    (finished : Bool) (ts : List Trigger) (fs : FS) :
    (∀ t fs', (runTrigger unlinkOk filePath finished t fs').surfaced = none) ∧
    (runTriggers unlinkOk filePath finished ts fs).2 ≤ 1 ∧
    (fs.existsSync filePath = true → unlinkOk filePath = true →
      (∃ t ∈ ts, t.eff finished = true) →
      (runTriggers unlinkOk filePath finished ts fs).2 = 1 ∧
      ((runTriggers unlinkOk filePath finished ts fs).1).existsSync filePath
        = false) :=
  ⟨fun t fs' => runTrigger_surfaced_none unlinkOk filePath finished t fs',
   runTriggers_count_le_one unlinkOk filePath finished ts fs,
   fun hex hun heff =>
     runTriggers_count_eq_one unlinkOk filePath finished ts fs hex hun heff⟩

/-- Claim C6, witness: all three triggers firing in sequence on a live
artifact delete it exactly once. -/
theorem release_idempotent_witness :
    (runTriggers (fun _ => true) "converted/abc.mp3" false
      [.finish, .error, .close] fsOneArtifact).2 = 1 :=
  ((release_idempotent (fun _ => true) "converted/abc.mp3" false
    [.finish, .error, .close] fsOneArtifact).2.2 (by decide) rfl
    ⟨.finish, by decide, rfl⟩).1

/-! Claim C7. -/

/-- Claim C7 counterexample: the input unlink on the success path of the
convert handler is not guarded; with a failing removal the handler ends in an
uncaught exception and the success response is never sent, while the same
request with a working removal answers success. -/
theorem cleanup_failure_surfaces :
    convertEndpoint (some candA) "u1" "o1" (.ended true) (fun _ => false) ⟨[]⟩
      = (.uncaught unlinkFailMsg, ⟨["converted/o1.mp3", "uploads/u1.mp4"]⟩) ∧
    (convertEndpoint (some candA) "u1" "o1" (.ended true) (fun _ => true)
      ⟨[]⟩).1 = .resp (successResponse "o1.mp3" candA) := by
  decide

/-- Claim C7 amended: removal failures in the download terminal handlers are
swallowed: nothing is surfaced and the filesystem is left as it was; the
convert catch block still delivers its 500 body when its own deletion succeeds
or the input is already gone; but the success-path input unlink is unguarded,
so its failure suppresses the success response and escapes as an uncaught
exception. -/
theorem cleanup_failure_handling (filePath : String) (finished : Bool)
    (t : Trigger) (fs : FS) (msg storedPath outputId : String)
    (file : Candidate) (produced : Bool) (unlinkOk : String → Bool) :
    (runTrigger (fun _ => false) filePath finished t fs).surfaced = none ∧
    (runTrigger (fun _ => false) filePath finished t fs).fs = fs ∧
    (unlinkOk storedPath = true ∨ fs.existsSync storedPath = false →
      (convertCatch storedPath msg unlinkOk fs).1
        = .resp (conversionFailedResponse msg)) ∧
    (fs.existsSync storedPath = true → unlinkOk storedPath = false →
      (apiConvert (.stored file storedPath) outputId (.ended produced)
        unlinkOk fs).1 = .uncaught unlinkFailMsg) := by
  refine ⟨runTrigger_surfaced_none _ filePath finished t fs, ?_, ?_, ?_⟩
  · unfold runTrigger
    repeat' split
    all_goals first | rfl | simp_all
  · intro h
    rcases h with hun | hnex
    · by_cases hex : fs.existsSync storedPath = true <;>
        simp [convertCatch, hex, hun]
    · simp [convertCatch, hnex]
  · intro hex hun
    cases produced <;>
      simp [apiConvert, convertCatch, hex, hun, FS.existsSync_create]

/-- Claim C7 amended, witness: a concrete success-path request whose input
unlink fails ends in an uncaught exception instead of the success response. -/
theorem cleanup_failure_handling_witness :
    (apiConvert (.stored candA "uploads/u1.mp4") "o1" (.ended true)
      (fun _ => false) ⟨["uploads/u1.mp4"]⟩).1 = .uncaught unlinkFailMsg :=
  (cleanup_failure_handling "converted/abc.mp3" false .finish
    ⟨["uploads/u1.mp4"]⟩ "m" "uploads/u1.mp4" "o1" candA true
    (fun _ => false)).2.2.2 (by decide) rfl

end Mp4ToMp3

namespace Mp4ToMp3

/-! Claim C8. -/

/-- Claim C8 counterexample: the success body of a concrete successful
conversion has no downloadToken field at all; the reference to the output is
the downloadUrl field, and a message field is present besides. -/
theorem no_downloadToken_field :
    (convertEndpoint (some candA) "u1" "o1" (.ended true) (fun _ => true)
      ⟨[]⟩).1 = .resp (successResponse "o1.mp3" candA) ∧
    (successResponse "o1.mp3" candA).body.lookup "downloadToken" = none ∧
    (successResponse "o1.mp3" candA).body.lookup "downloadUrl"
      = some (.str "/api/download/o1.mp3") := by
  decide

/-- Claim C8 amended: a successful conversion answers with the fields success,
message, downloadUrl, filename, originalName and size, where downloadUrl is
the api download path of the output filename and identifies the output for the
download call, originalName echoes the declared original name of the upload,
and size is the declared upload size. -/
theorem success_response_shape (file : Candidate) (storedPath outputId : String)
    (produced : Bool) (unlinkOk : String → Bool) (fs : FS)
    (hex : fs.existsSync storedPath = true) (hun : unlinkOk storedPath = true) :
    (apiConvert (.stored file storedPath) outputId (.ended produced) unlinkOk
      fs).1 = .resp
        { status := 200
          body := [("success", .bool true),
                   ("message", .str "Conversion completed successfully"),
                   ("downloadUrl", .str ("/api/download/" ++ (outputId ++ ".mp3"))),
                   ("filename", .str (outputId ++ ".mp3")),
                   ("originalName", .str file.originalname),
                   ("size", .num file.size)] } := by
  cases produced <;>
    simp [apiConvert, successResponse, hex, hun, FS.existsSync_create]

/-- Claim C8 amended, witness: the concrete success response carries the
actual field list. -/
theorem success_response_shape_witness :
    (apiConvert (.stored candA "uploads/u1.mp4") "o1" (.ended true)
      (fun _ => true) ⟨["uploads/u1.mp4"]⟩).1 = .resp
        { status := 200
          body := [("success", .bool true),
                   ("message", .str "Conversion completed successfully"),
                   ("downloadUrl", .str ("/api/download/" ++ ("o1" ++ ".mp3"))),
                   ("filename", .str ("o1" ++ ".mp3")),
                   ("originalName", .str candA.originalname),
                   ("size", .num candA.size)] } :=
  success_response_shape candA "uploads/u1.mp4" "o1" true (fun _ => true)
    ⟨["uploads/u1.mp4"]⟩ (by decide) rfl

/-! Claim C9. -/

theorem convertCatch_lookup_false (storedPath msg : String)
    (unlinkOk : String → Bool) (fs : FS) (r : Response)
    (hr : (convertCatch storedPath msg unlinkOk fs).1 = .resp r) :
    r.body.lookup "success" = some (.bool false) := by
  unfold convertCatch at hr
  repeat' split at hr
  all_goals first
    | (injection hr with h; subst h; rfl)
    | simp at hr

theorem apiConvert_stored_success_intake_gone (file : Candidate)
    (storedPath outputId : String) (engine : EngineOutcome)
    (unlinkOk : String → Bool) (fs : FS) (r : Response)
    (hr : (apiConvert (.stored file storedPath) outputId engine unlinkOk
      fs).1 = .resp r)
    (hs : r.body.lookup "success" = some (.bool true)) :
    ((apiConvert (.stored file storedPath) outputId engine unlinkOk
      fs).2).existsSync storedPath = false := by
  have hcc : ∀ m (fs2 : FS),
      ¬ (convertCatch storedPath m unlinkOk fs2).1 = .resp r := by
    intro m fs2 h
    have hl := convertCatch_lookup_false storedPath m unlinkOk fs2 r h
    rw [hs] at hl
    exact absurd hl (by simp)
  cases engine with
  | errored msg partOut =>
    exact absurd hr (hcc msg _)
  | ended produced =>
    unfold apiConvert at hr ⊢
    cases produced
    · by_cases hex : fs.existsSync storedPath = true
      · by_cases hun : unlinkOk storedPath = true
        · simp [hex, hun, FS.existsSync_unlink_self]
        · rw [Bool.not_eq_true] at hun
          simp [hex, hun] at hr
          exact absurd hr (hcc _ _)
      · rw [Bool.not_eq_true] at hex
        simp [hex] at hr
        exact absurd hr (hcc _ _)
    · by_cases hex : (fs.create (convertedDir ++ "/" ++ (outputId ++ ".mp3"))).existsSync
          storedPath = true
      · by_cases hun : unlinkOk storedPath = true
        · simp [hex, hun, FS.existsSync_unlink_self]
        · rw [Bool.not_eq_true] at hun
          simp [hex, hun] at hr
          exact absurd hr (hcc _ _)
      · rw [Bool.not_eq_true] at hex
        simp [hex] at hr
        exact absurd hr (hcc _ _)

/-- Claim C9: whenever the convert endpoint delivers a response whose success
field is true, the stored intake file of that request no longer exists in the
final filesystem state: the input unlink precedes the sending of the success
body. -/
theorem intake_gone_on_success (file : Candidate) (uploadId outputId : String)
    (engine : EngineOutcome) (unlinkOk : String → Bool) (fs0 : FS)
    (r : Response)
    (hr : (convertEndpoint (some file) uploadId outputId engine unlinkOk
      fs0).1 = .resp r)
    (hs : r.body.lookup "success" = some (.bool true)) :
    ((convertEndpoint (some file) uploadId outputId engine unlinkOk
      fs0).2).existsSync (uploadsDir ++ "/" ++ storedFilename uploadId file)
      = false := by
  cases hf : fileFilter file with
  | reject msg =>
    have hu : uploadSingle (some file) uploadId = .rejected msg := by
      simp [uploadSingle, hf]
    simp only [convertEndpoint, hu, multerStore, apiConvert] at hr
    injection hr with h
    subst h
    rw [lookup_success_errorMiddleware] at hs
    exact absurd hs (by simp)
  | accept =>
    by_cases hsize : file.size > fileSizeLimit
    · have hu : uploadSingle (some file) uploadId = .tooLarge := by
        simp [uploadSingle, hf, hsize]
      simp only [convertEndpoint, hu, multerStore, apiConvert] at hr
      injection hr with h
      subst h
      rw [lookup_success_errorMiddleware] at hs
      exact absurd hs (by simp)
    · have hu : uploadSingle (some file) uploadId
          = .stored file (uploadsDir ++ "/" ++ storedFilename uploadId file) := by
        simp [uploadSingle, hf, hsize]
      simp only [convertEndpoint, hu, multerStore] at hr ⊢
      exact apiConvert_stored_success_intake_gone file _ outputId engine
        unlinkOk _ r hr hs

/-- Claim C9, witness: a concrete successful conversion leaves no intake
file. -/
theorem intake_gone_on_success_witness :
    ((convertEndpoint (some candA) "u1" "o1" (.ended true) (fun _ => true)
      ⟨[]⟩).2).existsSync (uploadsDir ++ "/" ++ storedFilename "u1" candA)
      = false :=
  intake_gone_on_success candA "u1" "o1" (.ended true) (fun _ => true) ⟨[]⟩
    (successResponse "o1.mp3" candA) (by decide) rfl

/-! Claim C10. -/

/-- Claim C10: a convert request with no file payload is answered with status
400 and the body success false, error No file uploaded; the filesystem is
unchanged and the result does not depend on the engine, which is never
invoked. -/
theorem no_file_guard (uploadId outputId : String) (engine : EngineOutcome)
    (unlinkOk : String → Bool) (fs0 : FS) :
    convertEndpoint none uploadId outputId engine unlinkOk fs0
      = (.resp { status := 400
                 body := [("success", .bool false),
                          ("error", .str "No file uploaded")] }, fs0) := rfl

end Mp4ToMp3
